import Mathlib

/-!
Shallow embedding of the two chart-generation scripts of this repository:
`scripts/generate_charts.py` and `scripts/generate_compression_charts.py`.

Both scripts are straight-line matplotlib programs over literal numeric
arrays.  We embed:
  * the literal data arrays exactly, as integers counting thousandths of a
    unit (`Milli`): every literal in the scripts has at most two decimal
    digits, so the representation is exact (`265.49` MB becomes `265490`,
    the bar width `0.25` becomes `250`, a category unit is `1000`);
  * `ax.bar(xs, heights, width)` as a `zipWith` producing `Bar` records
    (matplotlib's default alignment is `center`, so `Bar.x` is the bar's
    centre; `get_x()` in the source is the left edge `x - width/2`);
  * the value-label loops as maps producing `BarLabel` records whose text
    is the Python format string applied to the value;
  * the observable side effects (`plt.savefig`, `print`, `plt.close`) as an
    `Effect` trace per script, and each script's straight-line execution as
    an `Except`-valued run that fails exactly where matplotlib would raise
    (mismatched array lengths in a bar call).

Number formatting: the scripts format values with Python fixed-point
formats such as `'.1f'`.  CPython formats the IEEE-754 double nearest to
the literal, rounding the decimal expansion of that double to `d` places.
For every literal appearing in these scripts this coincides with half-up
rounding of the exact decimal value, which is what `formatFixed` below
computes.  (The only literal lying exactly on a rounding boundary is
`792.45` at one decimal: its nearest double is `6970463915448730 / 2^43`,
which is strictly above `792.45`, so CPython rounds it up to `"792.5"`,
exactly as half-up rounding of the exact value does.  Every other literal
is at distance at least `0.004` from a rounding boundary, far beyond the
representation error of a double at these magnitudes.)

The spec's `GroupedBarChartRenderer` component, with its `render(spec) ->
success | RenderError` contract, is described by the spec as the reusable
core but is not implemented as a separate component under `src/`: the
scripts inline three valid invocations each.  That contract is therefore
modelled from the spec in the `SpecRenderer` namespace below.
-/

namespace ChartGen

/-- Fixed-point numeric type of the embedding: an integer number of
thousandths of a unit (MB, seconds, compression factor, or category-axis
units, depending on context).  Exact for every literal in the scripts. -/
abbrev Milli := Int

/-- Left-pad a digit list with zeros until it is long enough to receive a
decimal point with `d` digits after it. -/
def padDigits (d : Nat) (s : List Char) : List Char :=
  if s.length ≤ d then List.replicate (d + 1 - s.length) '0' ++ s else s

/-- Insert a decimal point `d` places from the right. -/
def insertPoint (d : Nat) (s : List Char) : List Char :=
  if d = 0 then s
  else s.take (s.length - d) ++ '.' :: s.drop (s.length - d)

/-- Python's fixed-point format `'.df'` (for `d ≤ 3`) applied to a
nonnegative value given in thousandths: round half-up to `d` decimal
places and print with exactly `d` digits after the point.  See the file
header for why half-up rounding of the exact value agrees with CPython on
every literal of the scripts. -/
def formatFixed (d : Nat) (v : Milli) : String :=
  let m : Int := 10 ^ (3 - d)
  let n : Int := (v + m / 2).fdiv m
  String.mk (insertPoint d (padDigits d (Nat.toDigits 10 n.natAbs)))

/-- One drawn rectangle of a bar chart.  `x` is the bar's centre
(matplotlib's default `align='center'`), `height` its value, `width` its
width; positions and widths are in thousandths of one category unit. -/
structure Bar where
  x : Milli
  height : Milli
  width : Milli
deriving DecidableEq

/-- One value label placed by an `ax.text` call: position and text.  The
source places each label at `bar.get_x() + bar.get_width()/2` (the bar's
centre) at height `height`. -/
structure BarLabel where
  x : Milli
  y : Milli
  text : String
deriving DecidableEq

/-- The y-axis scale chosen for a chart: `ax.set_yscale('log')` or the
linear default. -/
inductive YScale where
  | linear
  | log
deriving DecidableEq, BEq

/-- The observable content of one rendered chart: one bar list per
`ax.bar` call (one call per series), the value labels, the y-scale and the
x ticks/labels. -/
structure Chart where
  series : List (List Bar)
  labels : List BarLabel
  yscale : YScale
  xticks : List Milli
  xticklabels : List String
deriving DecidableEq

/-- Embedding of `np.arange n` as category-axis positions: `0, 1, ..., n-1`
category units, i.e. `0, 1000, ...` thousandths. -/
def arange (n : Nat) : List Milli :=
  (List.range n).map (fun i => (i : Int) * 1000)

/-- Embedding of `ax.bar(xs, heights, width)`: one bar per position/height
pair, centred at its position. -/
def bar (xs : List Milli) (heights : List Milli) (w : Milli) : List Bar :=
  List.zipWith (fun x h => { x := x, height := h, width := w }) xs heights

/-- Embedding of `ax.bar` together with the length check numpy performs:
a bar call whose position and height arrays differ in length raises, which
aborts the script before any later effect. -/
def barE (xs : List Milli) (heights : List Milli) (w : Milli) :
    Except String (List Bar) :=
  if xs.length = heights.length then .ok (bar xs heights w)
  else .error "shape mismatch: x and height arrays differ in length"

/-- An observable side effect of a script run: a `plt.savefig` call, a
line printed to standard output, or a `plt.close()` call. -/
inductive Effect where
  | savefig (path : String) (dpi : Nat) (bboxTight : Bool)
  | message (line : String)
  | close
deriving DecidableEq, BEq

/-- The paths written by the `savefig` effects of a trace, in order. -/
def savePaths (es : List Effect) : List String :=
  es.filterMap (fun e => match e with
    | .savefig p _ _ => some p
    | _ => none)

/-- The lines printed to standard output by a trace, in order. -/
def stdoutLines (es : List Effect) : List String :=
  es.filterMap (fun e => match e with
    | .message s => some s
    | _ => none)

/-- The subsequence of `savefig` and `close` effects of a trace, used to
state that every saved figure is closed before the next one is saved. -/
def saveCloseSkeleton (es : List Effect) : List Effect :=
  es.filter (fun e => match e with
    | .savefig _ _ _ => true
    | .close => true
    | _ => false)

/-- All bar heights of a chart, across its series. -/
def chartHeights (c : Chart) : List Milli :=
  c.series.flatten.map Bar.height

/-- Check that the bars of one category group are equal-width and adjacent
(no gaps), walking left to right: the next bar is centred one width after
the previous one. -/
def adjacentFrom : Milli → Milli → List Bar → Bool
  | _, _, [] => true
  | x0, w, b :: bs =>
    (b.x == x0) && (b.width == w) && adjacentFrom (x0 + w) w bs

/-- Check the spec's bar-group layout for the group of bars at one
category tick `t`: `n` equal-width adjacent bars whose union is centred on
`t`, with total group width between `0.7` and `0.8` of one category unit
(`700` to `800` thousandths). -/
def groupOK (n : Nat) (t : Milli) (g : List Bar) : Bool :=
  match g with
  | [] => false
  | b0 :: _ =>
    let w := b0.width
    let tw := (n : Int) * w
    (g.length == n) && adjacentFrom (t - tw / 2 + w / 2) w g &&
    decide (700 ≤ tw) && decide (tw ≤ 800)

/-- Check the spec's bar-group layout for a whole chart: every series has
one bar per category tick, and at every tick the group of bars (one from
each series, in series order) satisfies `groupOK`. -/
def groupLayoutOK (c : Chart) : Bool :=
  (c.series.all (fun s => s.length == c.xticks.length)) &&
  (List.range c.xticks.length).all (fun i =>
    match c.xticks[i]? with
    | none => false
    | some t => groupOK c.series.length t (c.series.filterMap (fun s => s[i]?)))

/-! ## Data of `scripts/generate_charts.py` (lab 3, LSM vs PostgreSQL)

All values in thousandths: `265.49` MB is `265490`, etc. -/

def datasets : List String := ["trade_data", "tweets"]
def csv_sizes : List Milli := [265490, 3997580]
def lsm_sizes : List Milli := [792450, 6257660]
def pg_sizes : List Milli := [1146170, 8987940]

def lsm_read_times : List Milli := [24720, 110600]
def pg_read_times : List Milli := [6930, 52580]

def lsm_write_times : List Milli := [162740, 578210]
def pg_write_times : List Milli := [294430, 1521900]

/-- Category-axis positions `x = np.arange(len(datasets))` of the lab-3
script (recomputed identically before each of its three charts). -/
def xLab3 : List Milli := arange datasets.length

/-! Chart 1 of lab 3: sizes after conversion.  `width = 0.25` (i.e. `250`);
bars at `x - width`, `x`, `x + width`; labels `'.1f'`. -/

def bars1_csv : List Bar := bar (xLab3.map (fun v => v - 250)) csv_sizes 250
def bars1_lsm : List Bar := bar xLab3 lsm_sizes 250
def bars1_pg : List Bar := bar (xLab3.map (fun v => v + 250)) pg_sizes 250

def lab3SizesChart : Chart :=
  { series := [bars1_csv, bars1_lsm, bars1_pg]
  , labels := (bars1_csv ++ bars1_lsm ++ bars1_pg).map
      (fun b => { x := b.x, y := b.height, text := formatFixed 1 b.height })
  , yscale := .linear
  , xticks := xLab3
  , xticklabels := datasets }

/-! Chart 2 of lab 3: full-read times.  `width = 0.35` (i.e. `350`); bars
at `x - width/2`, `x + width/2`; labels `'.2f'`. -/

def bars2_lsm : List Bar := bar (xLab3.map (fun v => v - 175)) lsm_read_times 350
def bars2_pg : List Bar := bar (xLab3.map (fun v => v + 175)) pg_read_times 350

def lab3ReadChart : Chart :=
  { series := [bars2_lsm, bars2_pg]
  , labels := (bars2_lsm ++ bars2_pg).map
      (fun b => { x := b.x, y := b.height, text := formatFixed 2 b.height })
  , yscale := .linear
  , xticks := xLab3
  , xticklabels := datasets }

/-! Chart 3 of lab 3: write/import times.  Same layout as chart 2. -/

def bars3_lsm : List Bar := bar (xLab3.map (fun v => v - 175)) lsm_write_times 350
def bars3_pg : List Bar := bar (xLab3.map (fun v => v + 175)) pg_write_times 350

def lab3WriteChart : Chart :=
  { series := [bars3_lsm, bars3_pg]
  , labels := (bars3_lsm ++ bars3_pg).map
      (fun b => { x := b.x, y := b.height, text := formatFixed 2 b.height })
  , yscale := .linear
  , xticks := xLab3
  , xticklabels := datasets }

/-! ## Data of `scripts/generate_compression_charts.py` (lab 4) -/

def algorithms : List String := ["LZ77\n(наша)", "GZIP", "ZSTD"]
def compression_ratios : List Milli := [2290, 5670, 4850]
def compress_times : List Milli := [187320, 22670, 1990]
def decompress_times : List Milli := [203150, 1730, 710]

/-- Category-axis positions of the lab-4 charts.  The source passes the
category labels directly to `ax.bar`, which places them at `0, 1, 2` and
uses matplotlib's default bar width `0.8` (i.e. `800`). -/
def xLab4 : List Milli := arange algorithms.length

def bars4_ratio : List Bar := bar xLab4 compression_ratios 800

def lab4RatioChart : Chart :=
  { series := [bars4_ratio]
  , labels := List.zipWith
      (fun b r => { x := b.x, y := b.height, text := formatFixed 2 r ++ "×" })
      bars4_ratio compression_ratios
  , yscale := .linear
  , xticks := xLab4
  , xticklabels := algorithms }

def bars4_compress : List Bar := bar xLab4 compress_times 800

def lab4CompressTimeChart : Chart :=
  { series := [bars4_compress]
  , labels := List.zipWith
      (fun b t => { x := b.x, y := b.height, text := formatFixed 2 t ++ " с" })
      bars4_compress compress_times
  , yscale := .log
  , xticks := xLab4
  , xticklabels := algorithms }

def bars4_decompress : List Bar := bar xLab4 decompress_times 800

def lab4DecompressTimeChart : Chart :=
  { series := [bars4_decompress]
  , labels := List.zipWith
      (fun b t => { x := b.x, y := b.height, text := formatFixed 2 t ++ " с" })
      bars4_decompress decompress_times
  , yscale := .log
  , xticks := xLab4
  , xticklabels := algorithms }

/-- The three charts of `generate_charts.py`, in script order. -/
def lab3Charts : List Chart := [lab3SizesChart, lab3ReadChart, lab3WriteChart]

/-- The three charts of `generate_compression_charts.py`, in script order. -/
def lab4Charts : List Chart := [lab4RatioChart, lab4CompressTimeChart, lab4DecompressTimeChart]

/-- All six charts rendered across the two scripts. -/
def allCharts : List Chart := lab3Charts ++ lab4Charts

/-! ## The side-effect traces of the two scripts -/

/-- The final completion line printed by each script. -/
def finalMessage : String := "\nВсе графики успешно созданы!"

/-- The side-effect trace of `generate_charts.py`, in program order. -/
def generateChartsEffects : List Effect :=
  [ .savefig "docs/images/lab3_sizes.png" 300 true
  , .message "✓ График 1 сохранен: docs/images/lab3_sizes.png"
  , .close
  , .savefig "docs/images/lab3_read.png" 300 true
  , .message "✓ График 2 сохранен: docs/images/lab3_read.png"
  , .close
  , .savefig "docs/images/lab3_write.png" 300 true
  , .message "✓ График 3 сохранен: docs/images/lab3_write.png"
  , .close
  , .message finalMessage ]

/-- The side-effect trace of `generate_compression_charts.py`, in program
order. -/
def generateCompressionChartsEffects : List Effect :=
  [ .savefig "docs/images/lab4_compression_ratio.png" 300 true
  , .message "✓ График 1 сохранен: docs/images/lab4_compression_ratio.png"
  , .close
  , .savefig "docs/images/lab4_compress_time.png" 300 true
  , .message "✓ График 2 сохранен: docs/images/lab4_compress_time.png"
  , .close
  , .savefig "docs/images/lab4_decompress_time.png" 300 true
  , .message "✓ График 3 сохранен: docs/images/lab4_decompress_time.png"
  , .close
  , .message finalMessage ]

/-- The combined trace of running both scripts. -/
def allEffects : List Effect :=
  generateChartsEffects ++ generateCompressionChartsEffects

/-- Straight-line execution of `generate_charts.py`: each `ax.bar` call is
length-checked (a mismatch raises and aborts, modelled by the `Except`
error), and the effects are emitted in program order.  A `.ok` result is a
run that falls off the end of the script, i.e. exits with status 0. -/
def runGenerateCharts : Except String (List Effect) := do
  let _ ← barE (xLab3.map (fun v => v - 250)) csv_sizes 250
  let _ ← barE xLab3 lsm_sizes 250
  let _ ← barE (xLab3.map (fun v => v + 250)) pg_sizes 250
  let _ ← barE (xLab3.map (fun v => v - 175)) lsm_read_times 350
  let _ ← barE (xLab3.map (fun v => v + 175)) pg_read_times 350
  let _ ← barE (xLab3.map (fun v => v - 175)) lsm_write_times 350
  let _ ← barE (xLab3.map (fun v => v + 175)) pg_write_times 350
  pure generateChartsEffects

/-- Straight-line execution of `generate_compression_charts.py`, as above. -/
def runGenerateCompressionCharts : Except String (List Effect) := do
  let _ ← barE xLab4 compression_ratios 800
  let _ ← barE xLab4 compress_times 800
  let _ ← barE xLab4 decompress_times 800
  pure generateCompressionChartsEffects

end ChartGen

namespace SpecRenderer

open ChartGen (YScale Effect savePaths padDigits insertPoint)

/-- Modelled from the spec: one named series of a `ChartSpec` ("a name
(string) and an ordered sequence of numeric values").  The reusable
`GroupedBarChartRenderer` component is described by the spec but not
implemented as a separate component under `src/`; its data model and error
contract are modelled here from the spec's words.  Values are exact
rationals. -/
structure SeriesSpec where
  name : String
  values : List ℚ
deriving DecidableEq

/-- Modelled from the spec: a `ChartSpec` (category set, list of series,
value-label format, y-axis scale, group width, output path, resolution; the
purely cosmetic fields — titles, colors — are irrelevant to every claim and
omitted). -/
structure ChartSpec where
  categories : List String
  series : List SeriesSpec
  yscale : YScale
  fmtDecimals : Nat
  fmtSuffix : String
  groupWidth : ℚ
  outputPath : String
  dpi : Nat

/-- Modelled from the spec: the renderer's error taxonomy,
`InvalidSpecError` for a malformed spec and `IOError` for an unwritable
output directory. -/
inductive RenderError where
  | invalidSpec (msg : String)
  | ioError (msg : String)
deriving DecidableEq

/-- The descriptive message carried by every `invalidSpec` failure. -/
def invalidSpecMsg : String :=
  "invalid chart spec: a series length mismatches the category count or a series is empty"

/-- The spec-validity check: a spec is bad when it has no series, when some
series length mismatches the category count, or when some series is empty. -/
def specBad (s : ChartSpec) : Bool :=
  s.series.isEmpty ||
    s.series.any (fun sr =>
      sr.values.length != s.categories.length || sr.values.isEmpty)

/-- The parent directory of an output path (the path up to its last
component). -/
def parentDir (p : String) : String :=
  String.intercalate "/" ((p.splitOn "/").dropLast)

/-- The message carried by an `ioError` failure for spec `s`. -/
def ioErrorMsg (s : ChartSpec) : String :=
  "cannot write to output directory " ++ parentDir s.outputPath

/-- Python's fixed-point format over exact rationals, used by the modelled
renderer's value labels (half-up rounding, as in `ChartGen.formatFixed`). -/
def formatFixedRat (d : Nat) (q : ℚ) : String :=
  String.mk (insertPoint d (padDigits d
    (Nat.toDigits 10 (q * (10 : ℚ) ^ d + 1/2).floor.natAbs)))

/-- One bar produced by the modelled renderer: centre, value, width, in
category units. -/
structure SpecBar where
  x : ℚ
  height : ℚ
  width : ℚ
deriving DecidableEq

/-- One value label produced by the modelled renderer. -/
structure SpecLabel where
  x : ℚ
  y : ℚ
  text : String
deriving DecidableEq

/-- The observable content of a chart produced by the modelled renderer:
bar heights, labels and layout. -/
structure SpecChart where
  series : List (List SpecBar)
  labels : List SpecLabel
  yscale : YScale
  xticks : List ℚ
  xticklabels : List String
deriving DecidableEq

/-- Modelled from the spec: the renderer's layout and labelling (behaviors
1–2 of the `GroupedBarChartRenderer` contract).  For `N` series, each
category's slot is partitioned into `N` equal-width adjacent bars whose
group of total width `groupWidth` is centred on the category tick; each
bar's value is printed above it using the configured format. -/
def buildSpecChart (s : ChartSpec) : SpecChart :=
  let n := s.series.length
  let w := s.groupWidth / n
  let ticks := (List.range s.categories.length).map (fun i => (i : ℚ))
  let seriesBars := s.series.enum.map (fun p =>
    List.zipWith
      (fun t h => SpecBar.mk (t - s.groupWidth / 2 + w / 2 + (p.1 : ℚ) * w) h w)
      ticks p.2.values)
  { series := seriesBars
  , labels := seriesBars.flatten.map (fun b =>
      { x := b.x, y := b.height
      , text := formatFixedRat s.fmtDecimals b.height ++ s.fmtSuffix })
  , yscale := s.yscale
  , xticks := ticks
  , xticklabels := s.categories }

/-- Modelled from the spec: `render(spec) -> (success | RenderError)`.
The spec is validated first (`InvalidSpecError` on a malformed spec, with
no file written); then the output directory's writability is checked
against the filesystem oracle `writable` (`IOError` when unwritable, with
no file written); on success exactly one image file is written and the
figure is closed before returning.  The first component is the trace of
file-writing effects actually performed. -/
def render (s : ChartSpec) (writable : String → Bool) :
    List Effect × Except RenderError SpecChart :=
  if specBad s then
    ([], .error (.invalidSpec invalidSpecMsg))
  else if writable (parentDir s.outputPath) then
    ([.savefig s.outputPath s.dpi true, .close], .ok (buildSpecChart s))
  else
    ([], .error (.ioError (ioErrorMsg s)))

/-- A malformed spec used to witness the invalid-spec error path: one
series of length 1 against two categories. -/
def badSpec : ChartSpec :=
  { categories := ["trade_data", "tweets"]
  , series := [⟨"CSV", [1]⟩]
  , yscale := .linear, fmtDecimals := 1, fmtSuffix := ""
  , groupWidth := 3/4, outputPath := "docs/images/demo.png", dpi := 300 }

/-- A well-formed spec used to witness the unwritable-directory error
path. -/
def roSpec : ChartSpec :=
  { categories := ["trade_data", "tweets"]
  , series := [⟨"CSV", [1, 2]⟩]
  , yscale := .linear, fmtDecimals := 1, fmtSuffix := ""
  , groupWidth := 3/4, outputPath := "docs/images/demo2.png", dpi := 300 }

/-- A well-formed two-series spec used to witness determinism of the
modelled renderer. -/
def demoSpec : ChartSpec :=
  { categories := ["trade_data", "tweets"]
  , series := [⟨"CSV", [1, 2]⟩, ⟨"LSM", [3, 4]⟩]
  , yscale := .linear, fmtDecimals := 1, fmtSuffix := ""
  , groupWidth := 3/4, outputPath := "docs/images/demo3.png", dpi := 300 }

end SpecRenderer

open ChartGen SpecRenderer

/-- Claim C1: every render invocation whose series lengths mismatch the
category count, or whose series is empty, fails with `InvalidSpecError`
carrying a descriptive message and writes no image file; a valid spec whose
output directory is unwritable fails with `IOError` and likewise writes no
file.  Stated over the renderer contract modelled from the spec
(`SpecRenderer.render`), since the scripts inline only valid invocations. -/
theorem render_error_contract (s : ChartSpec) (w : String → Bool) :
    ((∃ sr ∈ s.series, sr.values.length ≠ s.categories.length ∨ sr.values = []) →
      render s w = ([], .error (.invalidSpec invalidSpecMsg)) ∧
      savePaths (render s w).1 = []) ∧
    (specBad s = false → w (parentDir s.outputPath) = false →
      render s w = ([], .error (.ioError (ioErrorMsg s))) ∧
      savePaths (render s w).1 = []) := by
  constructor
  · rintro ⟨sr, hmem, hbad⟩
    have hb : specBad s = true := by
      unfold specBad
      have hany : s.series.any (fun sr =>
          sr.values.length != s.categories.length || sr.values.isEmpty) = true := by
        refine List.any_eq_true.mpr ⟨sr, hmem, ?_⟩
        rcases hbad with h | h
        · simp [bne_iff_ne, h]
        · simp [h]
      simp [hany]
    refine ⟨?_, ?_⟩ <;> simp [render, hb, savePaths]
  · intro hb hw
    refine ⟨?_, ?_⟩ <;> simp [render, hb, hw, savePaths]

/-- Witness for C1: a one-value series against two categories aborts with
`InvalidSpecError`; the same data with matching lengths but an unwritable
output directory aborts with `IOError`. -/
theorem render_error_contract_witness :
    render badSpec (fun _ => true) = ([], .error (.invalidSpec invalidSpecMsg)) ∧
    render roSpec (fun _ => false) = ([], .error (.ioError (ioErrorMsg roSpec))) := by
  constructor
  · exact ((render_error_contract badSpec (fun _ => true)).1
      ⟨⟨"CSV", [1]⟩, by simp [badSpec], Or.inl (by simp [badSpec])⟩).1
  · exact ((render_error_contract roSpec (fun _ => false)).2 rfl rfl).1

/-- Claim C2: the lab-3 sizes chart has 2 category groups of 3 bars each,
a linear y-axis, and value labels formatted to one decimal place:
`"265.5"`, `"3997.6"`, `"792.5"`, `"6257.7"`, `"1146.2"`, `"8987.9"`. -/
theorem lab3_sizes_chart_matches_scenario :
    lab3SizesChart.xticks.length = 2 ∧
    lab3SizesChart.series.length = 3 ∧
    lab3SizesChart.series.map List.length = [2, 2, 2] ∧
    lab3SizesChart.yscale = YScale.linear ∧
    lab3SizesChart.labels.map BarLabel.text =
      ["265.5", "3997.6", "792.5", "6257.7", "1146.2", "8987.9"] ∧
    groupLayoutOK lab3SizesChart = true := by
  decide

/-- Claim C3: every chart rendered with a logarithmic y-axis has strictly
positive plotted values only; in particular the compress-time chart is on a
log axis and its smallest bar is the `1.99` s one (`1990` thousandths),
which is strictly positive. -/
theorem log_scale_charts_all_values_positive :
    (allCharts.all (fun c =>
      !(c.yscale == YScale.log) ||
        (chartHeights c).all (fun h => decide (0 < h)))) = true ∧
    lab4CompressTimeChart.yscale = YScale.log ∧
    (chartHeights lab4CompressTimeChart).contains 1990 = true ∧
    ((chartHeights lab4CompressTimeChart).all (fun h => decide (1990 ≤ h))) = true ∧
    ((chartHeights lab4CompressTimeChart).all (fun h => decide (0 < h))) = true := by
  decide

/-- Claim C4: in every chart the number of drawn bars per category equals
the number of series, and each bar's label text is the corresponding input
value formatted per that chart's format (one decimal for the sizes chart,
two decimals for the time charts, two decimals with `"×"` or `" с"`
suffixes in the lab-4 charts); the spec's example `5.67` with a two-decimal
format renders `"5.67"`. -/
theorem bars_per_category_and_label_text :
    (allCharts.all (fun c =>
      c.series.all (fun s => s.length == c.xticks.length))) = true ∧
    lab3SizesChart.labels.map BarLabel.text =
      (csv_sizes ++ lsm_sizes ++ pg_sizes).map (formatFixed 1) ∧
    lab3ReadChart.labels.map BarLabel.text =
      (lsm_read_times ++ pg_read_times).map (formatFixed 2) ∧
    lab3WriteChart.labels.map BarLabel.text =
      (lsm_write_times ++ pg_write_times).map (formatFixed 2) ∧
    lab4RatioChart.labels.map BarLabel.text =
      compression_ratios.map (fun r => formatFixed 2 r ++ "×") ∧
    lab4RatioChart.labels.map BarLabel.text = ["2.29×", "5.67×", "4.85×"] ∧
    lab4CompressTimeChart.labels.map BarLabel.text =
      ["187.32 с", "22.67 с", "1.99 с"] ∧
    lab4DecompressTimeChart.labels.map BarLabel.text =
      ["203.15 с", "1.73 с", "0.71 с"] ∧
    lab3ReadChart.labels.map BarLabel.text =
      ["24.72", "110.60", "6.93", "52.58"] ∧
    lab3WriteChart.labels.map BarLabel.text =
      ["162.74", "578.21", "294.43", "1521.90"] ∧
    formatFixed 2 5670 = "5.67" := by
  decide

/-- Claim C5: in every chart, each category's slot is partitioned into one
equal-width bar per series, adjacent with no gaps and centred on the
category tick, with total group width between 0.7 and 0.8 of one category
unit; concretely the six charts use group widths 0.75, 0.70, 0.70, 0.8,
0.8, 0.8 (in thousandths of a category unit below). -/
theorem grouped_bar_layout :
    (allCharts.all groupLayoutOK) = true ∧
    allCharts.map (fun c =>
        (c.series.length : Int) *
          ((c.series.flatten.head?.map Bar.width).getD 0)) =
      [750, 700, 700, 800, 800, 800] := by
  decide

/-- Claim C6: each script runs to completion (its straight-line execution
returns `.ok`, i.e. exits with status 0), writes exactly one image per
render call (three per script), and prints exactly one confirmation line
per generated file (the line ending in that file's path) plus one final
completion message. -/
theorem scripts_complete_with_confirmations :
    runGenerateCharts = Except.ok generateChartsEffects ∧
    runGenerateCompressionCharts = Except.ok generateCompressionChartsEffects ∧
    lab3Charts.length = 3 ∧
    (savePaths generateChartsEffects).length = 3 ∧
    lab4Charts.length = 3 ∧
    (savePaths generateCompressionChartsEffects).length = 3 ∧
    (stdoutLines generateChartsEffects).length = 4 ∧
    (stdoutLines generateCompressionChartsEffects).length = 4 ∧
    ((savePaths generateChartsEffects).all (fun p =>
      (stdoutLines generateChartsEffects).countP
        (fun l => p.data.isSuffixOf l.data) == 1)) = true ∧
    ((savePaths generateCompressionChartsEffects).all (fun p =>
      (stdoutLines generateCompressionChartsEffects).countP
        (fun l => p.data.isSuffixOf l.data) == 1)) = true ∧
    (stdoutLines generateChartsEffects).getLast? = some finalMessage ∧
    (stdoutLines generateCompressionChartsEffects).getLast? = some finalMessage :=
  ⟨rfl, rfl, by decide⟩

/-- Claim C7: every `savefig` call of either script writes a PNG under
`docs/images/` at 300 DPI with a tight bounding box, and each figure is
closed after saving and before the next figure is saved. -/
theorem savefig_png_300dpi_tight_then_closed :
    saveCloseSkeleton generateChartsEffects =
      [.savefig "docs/images/lab3_sizes.png" 300 true, .close,
       .savefig "docs/images/lab3_read.png" 300 true, .close,
       .savefig "docs/images/lab3_write.png" 300 true, .close] ∧
    saveCloseSkeleton generateCompressionChartsEffects =
      [.savefig "docs/images/lab4_compression_ratio.png" 300 true, .close,
       .savefig "docs/images/lab4_compress_time.png" 300 true, .close,
       .savefig "docs/images/lab4_decompress_time.png" 300 true, .close] ∧
    (allEffects.all (fun e => match e with
      | .savefig p dpi tight =>
        (dpi == 300) && tight && ".png".data.isSuffixOf p.data &&
          (p.data.take 12 == "docs/images/".data)
      | _ => true)) = true := by
  decide

/-- Claim C8: rendering is deterministic in its inputs: two runs of the
modelled renderer on the same spec, under any two filesystem environments,
produce the same chart (same bar heights, labels and layout) whenever both
succeed. -/
theorem render_deterministic (s : ChartSpec) (w₁ w₂ : String → Bool)
    (c₁ c₂ : SpecChart)
    (h₁ : (render s w₁).2 = .ok c₁) (h₂ : (render s w₂).2 = .ok c₂) :
    c₁ = c₂ := by
  unfold render at h₁ h₂
  cases hb : specBad s with
  | true =>
    rw [hb] at h₁
    simp at h₁
  | false =>
    rw [hb] at h₁ h₂
    cases hw₁ : w₁ (parentDir s.outputPath) with
    | false =>
      rw [hw₁] at h₁
      simp at h₁
    | true =>
      rw [hw₁] at h₁
      cases hw₂ : w₂ (parentDir s.outputPath) with
      | false =>
        rw [hw₂] at h₂
        simp at h₂
      | true =>
        rw [hw₂] at h₂
        simp at h₁ h₂
        rw [← h₁, ← h₂]

/-- Witness for C8: rendering `demoSpec` twice under a permissive
filesystem succeeds both times with the same chart. -/
theorem render_deterministic_witness :
    (render demoSpec (fun _ => true)).2 = .ok (buildSpecChart demoSpec) ∧
    buildSpecChart demoSpec = buildSpecChart demoSpec := by
  have h : (render demoSpec (fun _ => true)).2 = .ok (buildSpecChart demoSpec) := rfl
  exact ⟨h, render_deterministic demoSpec (fun _ => true) (fun _ => true) _ _ h h⟩

/-- Claim C9: in both scripts every literal data series has length equal
to its script's category list (2 for the lab-3 datasets, 3 for the lab-4
algorithms), every bar call draws exactly one bar per category, and every
zip of bars with values pairs them completely. -/
theorem parallel_arrays_aligned :
    datasets.length = 2 ∧
    ([csv_sizes, lsm_sizes, pg_sizes, lsm_read_times, pg_read_times,
      lsm_write_times, pg_write_times].all
        (fun l => l.length == datasets.length)) = true ∧
    algorithms.length = 3 ∧
    ([compression_ratios, compress_times, decompress_times].all
        (fun l => l.length == algorithms.length)) = true ∧
    (allCharts.all (fun c =>
      c.series.all (fun s => s.length == c.xticklabels.length))) = true ∧
    lab4RatioChart.labels.length = compression_ratios.length ∧
    lab4CompressTimeChart.labels.length = compress_times.length ∧
    lab4DecompressTimeChart.labels.length = decompress_times.length ∧
    lab4RatioChart.labels.length = bars4_ratio.length ∧
    lab4CompressTimeChart.labels.length = bars4_compress.length ∧
    lab4DecompressTimeChart.labels.length = bars4_decompress.length := by
  decide

/-- Claim C10: the six output paths written across both scripts are
pairwise distinct, and each path is written by exactly one `savefig`
effect, so no render call overwrites another chart's output file. -/
theorem output_paths_pairwise_distinct :
    savePaths allEffects =
      ["docs/images/lab3_sizes.png", "docs/images/lab3_read.png",
       "docs/images/lab3_write.png", "docs/images/lab4_compression_ratio.png",
       "docs/images/lab4_compress_time.png",
       "docs/images/lab4_decompress_time.png"] ∧
    (savePaths allEffects).Nodup ∧
    ((savePaths allEffects).all
      (fun p => (savePaths allEffects).count p == 1)) = true := by
  decide
